import Mathlib

/-!
Shallow embedding of the amplify-js excerpts relevant to the frozen claims:

* `packages/auth/src/providers/cognito/apis/signInWithUserPassword.ts`
* `packages/auth/src/cognito/cognito.d.ts` (the `CognitoProvider` facade)
* `packages/storage/src/providers/s3/apis/getUrl.ts`
* the unnamed sources: the Cognito `signUp` API and the `PredictionsClass`
  pluggable registry.

Remote round-trips (`handleUserPasswordAuthFlow`, the Cognito `signUp` client,
presigning) are modelled by passing the remote outcome as an explicit
parameter; each embedded operation additionally reports whether the remote
call was reached, so "fails before any network call" is a statement about the
returned record.  JavaScript truthiness on optional strings (`!!username`,
`Boolean(config.userPoolId)`) is modelled by `truthyOpt` / non-emptiness.
-/

namespace Amplify

/-- JS truthiness of an optional string: `undefined` and `""` are falsy. -/
def truthyOpt : Option String → Bool
  | none => false
  | some s => s ≠ ""

/-! ## Auth: `signInWithUserPassword.ts` -/

/-- The `AuthValidationErrorCode` members used by the embedded APIs
(`errors/types/validation`). -/
inductive AuthValidationErrorCode
  | EmptySignInUsername
  | EmptySignInPassword
  | EmptySignUpUsername
  | EmptySignUpPassword
deriving DecidableEq, Repr

/-- The `AuthSignInStep` values reachable in the embedded flows. -/
inductive AuthSignInStep
  | DONE
  | CONFIRM_SIGN_IN_WITH_SMS_CODE
  | CONFIRM_SIGN_IN_WITH_TOTP_CODE
  | CONFIRM_SIGN_IN_WITH_NEW_PASSWORD_REQUIRED
  | CONFIRM_SIGN_IN_WITH_CUSTOM_CHALLENGE
  | RESET_PASSWORD
  | CONFIRM_SIGN_UP
deriving DecidableEq, Repr

/-- The `AuthSignInResult` shape `{ isSignedIn, nextStep: { signInStep } }`. -/
structure AuthSignInResult where
  isSignedIn : Bool
  signInStep : AuthSignInStep
deriving DecidableEq, Repr

/-- The `AuthenticationResult` tokens of an `InitiateAuth` response. -/
structure AuthenticationResultType where
  AccessToken : Option String
  IdToken : Option String
  RefreshToken : Option String
deriving DecidableEq, Repr

/-- The response shape of `handleUserPasswordAuthFlow` (`InitiateAuth`):
`{ ChallengeName?, ChallengeParameters?, AuthenticationResult?, Session? }`. -/
structure InitiateAuthResponse where
  ChallengeName : Option String
  ChallengeParameters : Option (List (String × String))
  AuthenticationResult : Option AuthenticationResultType
  Session : Option String
deriving DecidableEq, Repr

/-- A service error as seen by `assertServiceError`: carries the remote error
name (e.g. `"NotAuthorizedException"`). -/
structure ServiceErr where
  name : String
deriving DecidableEq, Repr

/-- Errors surfaced by the embedded auth APIs. -/
inductive AuthError
  | validation (code : AuthValidationErrorCode)
  | service (e : ServiceErr)
deriving DecidableEq, Repr

/-- Whether an `AuthError` is a validation (local, pre-network) error. -/
def AuthError.isValidationError : AuthError → Bool
  | .validation _ => true
  | .service _ => false

/-- The record written by `setActiveSignInState` (`signInStore.ts`). -/
structure SignInStoreState where
  signInSession : Option String
  username : String
  challengeName : Option String
deriving DecidableEq, Repr

/-- Local auth state threaded through the embedded `signInWithUserPassword`:
the active sign-in store (`signInStore.ts`) and the token cache.  The source
never writes the token cache during this API (`// TODO(israx): cache tokens`);
the field exists so that claims about the cache can be evaluated. -/
structure AuthLocalState where
  signInStore : Option SignInStoreState
  tokenCache : Option AuthenticationResultType
deriving DecidableEq, Repr

/-- Modelled from the spec: `getSignInResult` from `signInHelpers` (not under
`src/`) maps a challenge name to the suspended next-step result
(`AwaitingChallengeResponse`). -/
def getSignInResult (challengeName : Option String) : AuthSignInResult :=
  match challengeName with
  | some "SMS_MFA" =>
      { isSignedIn := false, signInStep := .CONFIRM_SIGN_IN_WITH_SMS_CODE }
  | some "SOFTWARE_TOKEN_MFA" =>
      { isSignedIn := false, signInStep := .CONFIRM_SIGN_IN_WITH_TOTP_CODE }
  | some "NEW_PASSWORD_REQUIRED" =>
      { isSignedIn := false,
        signInStep := .CONFIRM_SIGN_IN_WITH_NEW_PASSWORD_REQUIRED }
  | _ =>
      { isSignedIn := false,
        signInStep := .CONFIRM_SIGN_IN_WITH_CUSTOM_CHALLENGE }

/-- Modelled from the spec: `getSignInResultFromError` from `signInHelpers`
(not under `src/`) maps a known subset of service error codes to non-error
next-step results; all other codes map to `none` (the error is rethrown). -/
def getSignInResultFromError (errorName : String) : Option AuthSignInResult :=
  if errorName = "PasswordResetRequiredException" then
    some { isSignedIn := false, signInStep := .RESET_PASSWORD }
  else if errorName = "UserNotConfirmedException" then
    some { isSignedIn := false, signInStep := .CONFIRM_SIGN_UP }
  else
    none

instance {ε α : Type} [DecidableEq ε] [DecidableEq α] :
    DecidableEq (Except ε α) := fun x y =>
  match x, y with
  | .ok a, .ok b =>
      if h : a = b then .isTrue (by rw [h]) else .isFalse (by simp [h])
  | .error a, .error b =>
      if h : a = b then .isTrue (by rw [h]) else .isFalse (by simp [h])
  | .ok _, .error _ => .isFalse (by simp)
  | .error _, .ok _ => .isFalse (by simp)

/-- The outcome of one embedded API call: the delivered result or error, the
final local state, and whether the remote service call was reached. -/
structure SignInExec where
  result : Except AuthError AuthSignInResult
  finalState : AuthLocalState
  remoteCalled : Bool
deriving DecidableEq, Repr

/-- Embedding of `signInWithUserPassword` (signInWithUserPassword.ts).
`flowOutcome` is the outcome of the remote `handleUserPasswordAuthFlow`
round-trip, reached only after both validation asserts pass.  On a response:
`setActiveSignInState` runs, then an `AuthenticationResult` yields the
`DONE` result after `cleanActiveSignInState` (no token-cache write: the
source has `// TODO(israx): cache tokens`); otherwise `getSignInResult`
builds the challenge next-step.  On a thrown error: `cleanActiveSignInState`
runs first, then `getSignInResultFromError` either yields a mapped result or
the service error is rethrown. -/
def signInWithUserPassword (username password : String)
    (flowOutcome : Except ServiceErr InitiateAuthResponse)
    (st : AuthLocalState) : SignInExec :=
  if username = "" then
    { result := .error (.validation .EmptySignInUsername),
      finalState := st, remoteCalled := false }
  else if password = "" then
    { result := .error (.validation .EmptySignInPassword),
      finalState := st, remoteCalled := false }
  else
    match flowOutcome with
    | .ok resp =>
        let st1 : AuthLocalState :=
          { st with
              signInStore := some
                { signInSession := resp.Session
                  username := username
                  challengeName := resp.ChallengeName } }
        match resp.AuthenticationResult with
        | some _ =>
            { result := .ok { isSignedIn := true, signInStep := .DONE },
              finalState := { st1 with signInStore := none },
              remoteCalled := true }
        | none =>
            { result := .ok (getSignInResult resp.ChallengeName),
              finalState := st1, remoteCalled := true }
    | .error e =>
        let st1 : AuthLocalState := { st with signInStore := none }
        match getSignInResultFromError e.name with
        | some r =>
            { result := .ok r, finalState := st1, remoteCalled := true }
        | none =>
            { result := .error (.service e), finalState := st1,
              remoteCalled := true }

/-! ## Auth: the `CognitoProvider` facade (`cognito.d.ts`) -/

/-- Top-level states of the xstate `authMachine` referenced by the facade
guards, such as `state.matches` applied to `signedIn` or `signingIn`. -/
inductive AuthMachineState
  | notConfigured
  | signedOut
  | signingIn
  | signedIn
  | signingUp
  | signedUp
  | errorState
deriving DecidableEq, Repr

/-- The `SignInParams.signInType` variants the facade dispatches on. -/
inductive SignInType
  | Password
  | Link
  | WebAuthn
  | Social
deriving DecidableEq, Repr

/-- The `ChallengeNameType` values accepted by `confirmSignIn`. -/
inductive ChallengeNameType
  | SMS_MFA
  | SOFTWARE_TOKEN_MFA
  | NEW_PASSWORD_REQUIRED
  | CUSTOM_CHALLENGE
  | SELECT_MFA_TYPE
  | MFA_SETUP
  | DEVICE_SRP_AUTH
  | DEVICE_PASSWORD_VERIFIER
  | ADMIN_NO_SRP_AUTH
deriving DecidableEq, Repr

/-- The `CognitoProviderConfig` fields the guards look at; optional strings
model JS `undefined` and `Boolean(...)` truthiness. -/
structure ProviderConfig where
  userPoolId : Option String
  region : Option String
  clientId : Option String
deriving DecidableEq, Repr

/-- The provider state visible to the facade guards: its `_config` and the
`_authService` machine state plus whether `state.context.actorRef` is set. -/
structure ProviderState where
  config : ProviderConfig
  authState : AuthMachineState
  hasActorRef : Bool
deriving DecidableEq, Repr

/-- Embedding of `isConfigured`: `Boolean(this._config?.userPoolId) &&
Boolean(this._config?.region)`.  The client id is not consulted. -/
def isConfigured (st : ProviderState) : Bool :=
  truthyOpt st.config.userPoolId && truthyOpt st.config.region

/-- Embedding of `isAuthenticated`: the auth machine state matches `signedIn`. -/
def isAuthenticated (st : ProviderState) : Bool :=
  st.authState = AuthMachineState.signedIn

/-- What a facade entry point does before any remote work: throw a local
error, or dispatch an event to the machine (starting the remote flow). -/
inductive FacadeOutcome
  | threw (msg : String)
  | dispatched
deriving DecidableEq, Repr

/-- The facade call ended in a locally thrown error (no machine dispatch). -/
def FacadeOutcome.isThrew : FacadeOutcome → Bool
  | .threw _ => true
  | .dispatched => false

/-- Embedding of `CognitoProvider.configure`: throws unless `userPoolId` and
`region` are truthy; on success stores the config (client id copied,
unchecked). -/
def configureFacade (cfg : ProviderConfig) : Except String ProviderConfig :=
  if ¬ truthyOpt cfg.userPoolId ∨ ¬ truthyOpt cfg.region then
    .error "Invalid config for CognitoProvider"
  else
    .ok { userPoolId := cfg.userPoolId, region := cfg.region,
          clientId := cfg.clientId }

/-- Embedding of the guard sequence of `CognitoProvider.signIn`: not
configured ⇒ throw; `Link`/`WebAuthn` ⇒ throw; `isAuthenticated()` (machine in
`signedIn`) ⇒ throw; otherwise the `signInRequested` event is dispatched. -/
def signInFacade (st : ProviderState) (signInType : SignInType) :
    FacadeOutcome :=
  if ¬ isConfigured st then
    .threw "Plugin not configured"
  else if signInType = .Link ∨ signInType = .WebAuthn then
    .threw "Not implemented"
  else if isAuthenticated st then
    .threw "User is already authenticated, please sign out the current user before signing in."
  else
    .dispatched

/-- Embedding of the guard sequence of `CognitoProvider.confirmSignIn`:
challenge names other than `SMS_MFA`/`SOFTWARE_TOKEN_MFA`/
`NEW_PASSWORD_REQUIRED` ⇒ throw `Not implemented`; no `actorRef` or machine
not in `signingIn` ⇒ throw the usage error; otherwise the
`respondToAuthChallenge` event is dispatched. -/
def confirmSignInFacade (st : ProviderState)
    (challengeName : ChallengeNameType) : FacadeOutcome :=
  if ¬ (challengeName = .SMS_MFA ∨ challengeName = .SOFTWARE_TOKEN_MFA ∨
        challengeName = .NEW_PASSWORD_REQUIRED) then
    .threw "Not implemented"
  else if ¬ st.hasActorRef ∨ ¬ st.authState = AuthMachineState.signingIn then
    .threw "Sign in proccess has not been initiated, have you called .signIn?"
  else
    .dispatched

/-! ## Auth: the Cognito `signUp` API (unnamed source) -/

/-- The part of the Cognito auth configuration `assertTokenProviderConfig`
looks at: the user pool id and the user pool client id. -/
structure CognitoAuthConfig where
  userPoolId : Option String
  userPoolClientId : Option String
deriving DecidableEq, Repr

/-- Modelled from the spec: `assertTokenProviderConfig` from
`@aws-amplify/core` (not under `src/`) detects a missing user-pool
configuration before any network call and reports it as a distinct
configuration-error category. -/
def tokenProviderConfigValid (cfg : Option CognitoAuthConfig) : Bool :=
  match cfg with
  | none => false
  | some c => truthyOpt c.userPoolId && truthyOpt c.userPoolClientId

/-- The `CodeDeliveryDetails` of a Cognito `SignUp` response. -/
structure CodeDeliveryDetailsType where
  DeliveryMedium : Option String
  Destination : Option String
  AttributeName : Option String
deriving DecidableEq, Repr

/-- A Cognito `SignUp` response: `{ UserConfirmed?, CodeDeliveryDetails?,
UserSub? }`. -/
structure SignUpResponse where
  UserConfirmed : Option Bool
  CodeDeliveryDetails : Option CodeDeliveryDetailsType
  UserSub : Option String
deriving DecidableEq, Repr

/-- The `AuthSignUpResult.nextStep.signUpStep` values. -/
inductive SignUpStep
  | DONE
  | CONFIRM_SIGN_UP
deriving DecidableEq, Repr

/-- Delivery details echoed into the sign-up result
(`codeDeliveryDetails`). -/
structure ResultCodeDeliveryDetails where
  deliveryMedium : Option String
  destination : Option String
  attributeName : Option String
deriving DecidableEq, Repr

/-- The `AuthSignUpResult` shape. -/
structure AuthSignUpResult where
  isSignUpComplete : Bool
  signUpStep : SignUpStep
  codeDeliveryDetails : Option ResultCodeDeliveryDetails
  userId : Option String
deriving DecidableEq, Repr

/-- Errors surfaced by the embedded `signUp`. -/
inductive SignUpError
  | tokenProviderConfig
  | validation (code : AuthValidationErrorCode)
  | service (e : ServiceErr)
deriving DecidableEq, Repr

/-- Whether a `SignUpError` is a validation (local, pre-network) error. -/
def SignUpError.isValidationError : SignUpError → Bool
  | .validation _ => true
  | _ => false

/-- Outcome of the embedded `signUp`: result or error, and whether the remote
`signUp` client call was reached. -/
structure SignUpExec where
  result : Except SignUpError AuthSignUpResult
  remoteCalled : Bool
deriving DecidableEq, Repr

/-- Embedding of the Cognito `signUp` API: `assertTokenProviderConfig`, then
the two validation asserts, then the remote `signUpClient` call (its outcome
passed as `remote`).  `UserConfirmed` truthy ⇒ `DONE`; otherwise
`CONFIRM_SIGN_UP` with `CodeDeliveryDetails` fields echoed via optional
chaining and `UserSub` as `userId`. -/
def signUp (authConfig : Option CognitoAuthConfig)
    (username password : String)
    (remote : Except ServiceErr SignUpResponse) : SignUpExec :=
  if ¬ tokenProviderConfigValid authConfig then
    { result := .error .tokenProviderConfig, remoteCalled := false }
  else if username = "" then
    { result := .error (.validation .EmptySignUpUsername),
      remoteCalled := false }
  else if password = "" then
    { result := .error (.validation .EmptySignUpPassword),
      remoteCalled := false }
  else
    match remote with
    | .error e => { result := .error (.service e), remoteCalled := true }
    | .ok res =>
        if res.UserConfirmed.getD false then
          { result := .ok
              { isSignUpComplete := true, signUpStep := .DONE,
                codeDeliveryDetails := none, userId := none },
            remoteCalled := true }
        else
          { result := .ok
              { isSignUpComplete := false, signUpStep := .CONFIRM_SIGN_UP,
                codeDeliveryDetails := some
                  { deliveryMedium :=
                      res.CodeDeliveryDetails.bind (·.DeliveryMedium)
                    destination :=
                      res.CodeDeliveryDetails.bind (·.Destination)
                    attributeName :=
                      res.CodeDeliveryDetails.bind (·.AttributeName) }
                userId := res.UserSub },
            remoteCalled := true }

/-! ## Storage: `getUrl.ts` -/

/-- The constant `DEFAULT_PRESIGN_EXPIRATION = 900`. -/
def DEFAULT_PRESIGN_EXPIRATION : Int := 900

/-- The constant `MAX_URL_EXPIRATION = 7 * 24 * 60 * 60 * 1000` (7 days in
milliseconds). -/
def MAX_URL_EXPIRATION : Int := 7 * 24 * 60 * 60 * 1000

/-- The `StorageValidationErrorCode` members used by `getUrl`. -/
inductive StorageValidationErrorCode
  | NoKey
  | UrlExpirationMaxLimitExceed
deriving DecidableEq, Repr

/-- Outcome of the embedded `getUrl`: a validation error thrown before
presigning, or a presigned result carrying `expiresAt` as epoch
milliseconds. -/
inductive GetUrlOutcome
  | validationError (code : StorageValidationErrorCode)
  | presigned (expiresAtMs : Int)
deriving DecidableEq, Repr

/-- Embedding of the `getUrl` control flow that determines `expiresAt`
(getUrl.ts).  `expirationOpt` is `options?.expiration`, `credExpirationMs` is
`credentials.expiration.getTime()` (absolute epoch ms), `nowMs` is
`Date.now()`.  The key assert runs first; then
`assertValidationError(urlExpiration > MAX_URL_EXPIRATION, ...)` throws
whenever `urlExpiration ≤ MAX_URL_EXPIRATION`; then
`urlExpiration = urlExpiration < credExpirationMs ? urlExpiration :
credExpirationMs` and `expiresAt = new Date(Date.now() + urlExpiration)`. -/
def getUrl (key : String) (expirationOpt : Option Int)
    (credExpirationMs nowMs : Int) : GetUrlOutcome :=
  if key = "" then
    .validationError .NoKey
  else
    let urlExpiration := expirationOpt.getD DEFAULT_PRESIGN_EXPIRATION
    if ¬ urlExpiration > MAX_URL_EXPIRATION then
      .validationError .UrlExpirationMaxLimitExceed
    else
      let clamped :=
        if urlExpiration < credExpirationMs then urlExpiration
        else credExpirationMs
      .presigned (nowMs + clamped)

/-! ## Predictions: `PredictionsClass` pluggable dispatch (unnamed source) -/

/-- A registered Predictions pluggable, identified by
`getProviderName()`. -/
structure PredictionsProvider where
  providerName : String
deriving DecidableEq, Repr

/-- Embedding of `PredictionsClass.getPluggableToExecute`: a truthy
`options.providerName` selects by `Array.prototype.find` (which yields
`undefined`, i.e. `none`, on a miss, without throwing); otherwise exactly one
registered pluggable is required, else the configuration error is thrown. -/
def getPluggableToExecute (pluggables : List PredictionsProvider)
    (providerNameOpt : Option String) :
    Except String (Option PredictionsProvider) :=
  if truthyOpt providerNameOpt then
    .ok (pluggables.find? fun p => p.providerName = providerNameOpt.getD "")
  else if pluggables.length = 1 then
    .ok pluggables.head?
  else
    .error "More than one or no providers are configured, Either specify a provider name or configure exactly one provider"

/-- What a Predictions dispatch (`convert`/`identify`/`interpret`) does with
the selected pluggable: executing it, rethrowing the configuration error, or
dereferencing `undefined` (a `TypeError` at runtime). -/
inductive DispatchOutcome
  | executed (providerName : String)
  | configError (msg : String)
  | typeErrorOnUndefined
deriving DecidableEq, Repr

/-- Embedding of the dispatch pattern shared by `interpret`, `convert` and
`identify`: `getPluggableToExecute(...)` followed by an unconditional method
call on its result. -/
def predictionsDispatch (pluggables : List PredictionsProvider)
    (providerNameOpt : Option String) : DispatchOutcome :=
  match getPluggableToExecute pluggables providerNameOpt with
  | .error msg => .configError msg
  | .ok none => .typeErrorOnUndefined
  | .ok (some p) => .executed p.providerName

/-! ## Theorems -/

/-- C9: in `getUrl`, every requested expiration (defaulting to 900 when
absent) that is at most `MAX_URL_EXPIRATION = 604800000` fails with the
`UrlExpirationMaxLimitExceed` validation error before any presigning, and
only requested expirations strictly greater than that constant pass the
check, because the assert condition is `urlExpiration > MAX_URL_EXPIRATION`. -/
theorem getUrl_expiration_assert_inverted (key : String)
    (expirationOpt : Option Int) (credExpirationMs nowMs : Int)
    (hkey : key ≠ "") :
    (expirationOpt.getD DEFAULT_PRESIGN_EXPIRATION ≤ MAX_URL_EXPIRATION →
      getUrl key expirationOpt credExpirationMs nowMs =
        .validationError .UrlExpirationMaxLimitExceed) ∧
    (expirationOpt.getD DEFAULT_PRESIGN_EXPIRATION > MAX_URL_EXPIRATION →
      getUrl key expirationOpt credExpirationMs nowMs =
        .presigned (nowMs +
          min (expirationOpt.getD DEFAULT_PRESIGN_EXPIRATION)
            credExpirationMs)) := by
  constructor
  · intro hle
    simp only [getUrl, if_neg hkey]
    rw [if_pos (by omega)]
  · intro hgt
    simp only [getUrl, if_neg hkey]
    rw [if_neg (by omega)]
    rcases lt_trichotomy (expirationOpt.getD DEFAULT_PRESIGN_EXPIRATION)
        credExpirationMs with h | h | h <;>
      simp [min_def, h, le_of_lt]

/-- C9 witness: the default expiration 900 is rejected with
`UrlExpirationMaxLimitExceed`, and a requested expiration of 604800001
passes the check. -/
theorem getUrl_expiration_assert_inverted_witness :
    getUrl "photo.jpg" none 2000000 1000000 =
      .validationError .UrlExpirationMaxLimitExceed ∧
    getUrl "photo.jpg" (some 604800001) 2000000 1000000 =
      .presigned (1000000 + min 604800001 2000000) := by
  refine ⟨(getUrl_expiration_assert_inverted "photo.jpg" none 2000000 1000000
    (by decide)).1 (by decide),
    (getUrl_expiration_assert_inverted "photo.jpg" (some 604800001) 2000000
    1000000 (by decide)).2 (by decide)⟩

/-- C3: evaluating `getUrl` where the credentials expire at epoch 2000000 ms
and now is 1000000 ms, with requested expiration 604800001 (the smallest
value passing the inverted max check), returns `expiresAt = 3000000`, which
exceeds the credentials expiration — the code adds the minimum of a relative
duration and an absolute epoch timestamp to `Date.now()`, so the returned
expiration is not the minimum of the two expiry timestamps and can exceed
the backing credentials expiration. -/
theorem getUrl_expiresAt_exceeds_cred_expiration :
    getUrl "photo.jpg" (some 604800001) 2000000 1000000 =
      .presigned 3000000 ∧ (3000000 : Int) > 2000000 := by
  constructor
  · rfl
  · decide

/-- C1: evaluating `signInWithUserPassword` on a flow outcome whose
`AuthenticationResult` carries non-empty tokens, starting from an empty
token cache, delivers the SignedIn result (`isSignedIn = true`, step `DONE`)
while the token cache is still empty — the source never writes the cache on
this path (it has a `TODO` to cache tokens), so a caller that receives
SignedIn and then reads the cache observes a cache miss. -/
theorem signIn_signedIn_observable_with_empty_cache :
    (signInWithUserPassword "user" "pass"
      (.ok { ChallengeName := none, ChallengeParameters := none,
             AuthenticationResult := some
               { AccessToken := some "access", IdToken := some "id",
                 RefreshToken := some "refresh" },
             Session := some "sess" })
      { signInStore := none, tokenCache := none }).result =
      .ok { isSignedIn := true, signInStep := .DONE } ∧
    (signInWithUserPassword "user" "pass"
      (.ok { ChallengeName := none, ChallengeParameters := none,
             AuthenticationResult := some
               { AccessToken := some "access", IdToken := some "id",
                 RefreshToken := some "refresh" },
             Session := some "sess" })
      { signInStore := none, tokenCache := none }).finalState.tokenCache =
      none := by
  exact ⟨rfl, rfl⟩

/-- C2: evaluating the `signIn` facade guard on a configured provider whose
auth machine is in `signingIn` with an active sign-in actor (a prior attempt
suspended awaiting a challenge response) dispatches a second
`signInRequested` event instead of failing fast — the only
already-in-progress guard is `isAuthenticated()`, which checks the
`signedIn` state. -/
theorem signIn_during_awaiting_challenge_dispatches :
    signInFacade
      { config := { userPoolId := some "pool", region := some "region",
                    clientId := some "client" },
        authState := .signingIn, hasActorRef := true } .Password =
      .dispatched := by
  rfl

/-- C4: when the remote flow of `signInWithUserPassword` throws a service
error, the active sign-in store is cleared in the delivered final state
(whether the error is mapped to a next-step result or rethrown), and a
subsequent `signInWithUserPassword` from that final state whose flow outcome
carries an `AuthenticationResult` delivers `isSignedIn = true`. -/
theorem signIn_error_clears_active_state (username password : String)
    (st : AuthLocalState) (e : ServiceErr)
    (hu : username ≠ "") (hp : password ≠ "") :
    (signInWithUserPassword username password (.error e) st).finalState.signInStore
      = none ∧
    ∀ (resp : InitiateAuthResponse) (ar : AuthenticationResultType),
      resp.AuthenticationResult = some ar →
      ∀ u2 p2 : String, u2 ≠ "" → p2 ≠ "" →
        (signInWithUserPassword u2 p2 (.ok resp)
          (signInWithUserPassword username password (.error e)
            st).finalState).result =
          .ok { isSignedIn := true, signInStep := .DONE } := by
  constructor
  · simp only [signInWithUserPassword, if_neg hu, if_neg hp]
    cases h : getSignInResultFromError e.name <;> simp [h]
  · intro resp ar har u2 p2 hu2 hp2
    simp only [signInWithUserPassword, if_neg hu2, if_neg hp2]
    simp [har]

/-- C4 witness: after a `NotAuthorizedException` the active sign-in store is
cleared, and a subsequent call with correct credentials (remote returns
tokens) succeeds with `isSignedIn = true`. -/
theorem signIn_error_clears_active_state_witness :
    (signInWithUserPassword "user" "wrong"
      (.error { name := "NotAuthorizedException" })
      { signInStore := some
          { signInSession := some "old", username := "user",
            challengeName := some "SMS_MFA" },
        tokenCache := none }).finalState.signInStore = none ∧
    (signInWithUserPassword "user" "correct"
      (.ok { ChallengeName := none, ChallengeParameters := none,
             AuthenticationResult := some
               { AccessToken := some "access", IdToken := some "id",
                 RefreshToken := some "refresh" },
             Session := some "sess" })
      (signInWithUserPassword "user" "wrong"
        (.error { name := "NotAuthorizedException" })
        { signInStore := some
            { signInSession := some "old", username := "user",
              challengeName := some "SMS_MFA" },
          tokenCache := none }).finalState).result =
      .ok { isSignedIn := true, signInStep := .DONE } := by
  have h := signIn_error_clears_active_state "user" "wrong"
    { signInStore := some
        { signInSession := some "old", username := "user",
          challengeName := some "SMS_MFA" },
      tokenCache := none }
    { name := "NotAuthorizedException" } (by decide) (by decide)
  exact ⟨h.1, h.2
    { ChallengeName := none, ChallengeParameters := none,
      AuthenticationResult := some
        { AccessToken := some "access", IdToken := some "id",
          RefreshToken := some "refresh" },
      Session := some "sess" }
    { AccessToken := some "access", IdToken := some "id",
      RefreshToken := some "refresh" } rfl
    "user" "correct" (by decide) (by decide)⟩

/-- C5: every sign-in or sign-up request with an empty username or an empty
password (given a valid token-provider configuration for sign-up) fails with
a validation error and the remote service call is never reached, so there is
nothing to retry. -/
theorem empty_credentials_fail_before_remote (username password : String)
    (st : AuthLocalState) (flowOutcome : Except ServiceErr InitiateAuthResponse)
    (cfg : Option CognitoAuthConfig) (remote : Except ServiceErr SignUpResponse)
    (hempty : username = "" ∨ password = "")
    (hcfg : tokenProviderConfigValid cfg = true) :
    (∃ c, (signInWithUserPassword username password flowOutcome st).result =
      .error (.validation c)) ∧
    (signInWithUserPassword username password flowOutcome st).remoteCalled =
      false ∧
    (∃ c, (signUp cfg username password remote).result =
      .error (.validation c)) ∧
    (signUp cfg username password remote).remoteCalled = false := by
  by_cases hu : username = ""
  · subst hu
    refine ⟨⟨.EmptySignInUsername, ?_⟩, ?_, ⟨.EmptySignUpUsername, ?_⟩, ?_⟩ <;>
      simp [signInWithUserPassword, signUp, hcfg]
  · have hp : password = "" := hempty.resolve_left hu
    subst hp
    refine ⟨⟨.EmptySignInPassword, ?_⟩, ?_, ⟨.EmptySignUpPassword, ?_⟩, ?_⟩ <;>
      simp [signInWithUserPassword, signUp, hu, hcfg]

/-- C5 witness: with username `""` and password `"pass"`, both sign-in and
sign-up fail with a validation error without reaching the remote call. -/
theorem empty_credentials_fail_before_remote_witness :
    (∃ c, (signInWithUserPassword "" "pass"
      (.ok { ChallengeName := none, ChallengeParameters := none,
             AuthenticationResult := none, Session := none })
      { signInStore := none, tokenCache := none }).result =
      .error (.validation c)) ∧
    (signInWithUserPassword "" "pass"
      (.ok { ChallengeName := none, ChallengeParameters := none,
             AuthenticationResult := none, Session := none })
      { signInStore := none, tokenCache := none }).remoteCalled = false ∧
    (∃ c, (signUp (some { userPoolId := some "pool",
                          userPoolClientId := some "client" }) "" "pass"
      (.ok { UserConfirmed := some true, CodeDeliveryDetails := none,
             UserSub := none })).result = .error (.validation c)) ∧
    (signUp (some { userPoolId := some "pool",
                    userPoolClientId := some "client" }) "" "pass"
      (.ok { UserConfirmed := some true, CodeDeliveryDetails := none,
             UserSub := none })).remoteCalled = false := by
  exact empty_credentials_fail_before_remote "" "pass"
    { signInStore := none, tokenCache := none }
    (.ok { ChallengeName := none, ChallengeParameters := none,
           AuthenticationResult := none, Session := none })
    (some { userPoolId := some "pool", userPoolClientId := some "client" })
    (.ok { UserConfirmed := some true, CodeDeliveryDetails := none,
           UserSub := none })
    (Or.inl rfl) (by decide)

/-- C6: every `confirmSignIn` call made while there is no active sign-in
actor or the auth machine is not in `signingIn` (no prior `signIn` initiated
the attempt) ends in a locally thrown error — it never dispatches the
`respondToAuthChallenge` event, so no remote call is made and no service
error can arise. -/
theorem confirmSignIn_without_active_attempt_fails_locally
    (st : ProviderState) (challengeName : ChallengeNameType)
    (h : st.hasActorRef = false ∨ st.authState ≠ .signingIn) :
    (confirmSignInFacade st challengeName).isThrew = true ∧
    confirmSignInFacade st challengeName ≠ .dispatched := by
  have h2 : ¬ st.hasActorRef ∨ ¬ st.authState = AuthMachineState.signingIn := by
    rcases h with h | h
    · exact Or.inl (by simp [h])
    · exact Or.inr h
  have hout : (confirmSignInFacade st challengeName).isThrew = true := by
    unfold confirmSignInFacade
    split
    · rfl
    · rfl
  refine ⟨hout, ?_⟩
  intro hdisp
  rw [hdisp] at hout
  exact Bool.false_ne_true hout

/-- C6 witness: calling `confirmSignIn` with `SMS_MFA` on a configured,
signed-out provider with no sign-in actor throws locally and does not
dispatch. -/
theorem confirmSignIn_without_active_attempt_fails_locally_witness :
    (confirmSignInFacade
      { config := { userPoolId := some "pool", region := some "region",
                    clientId := some "client" },
        authState := .signedOut, hasActorRef := false } .SMS_MFA).isThrew =
      true ∧
    confirmSignInFacade
      { config := { userPoolId := some "pool", region := some "region",
                    clientId := some "client" },
        authState := .signedOut, hasActorRef := false } .SMS_MFA ≠
      .dispatched := by
  exact confirmSignIn_without_active_attempt_fails_locally
    { config := { userPoolId := some "pool", region := some "region",
                  clientId := some "client" },
      authState := .signedOut, hasActorRef := false } .SMS_MFA
    (Or.inl rfl)

/-- C7: given a valid config and non-empty credentials, a sign-up response
with `UserConfirmed` true yields the Complete result (`isSignUpComplete =
true`, step `DONE`); otherwise (false or absent) the result is
`isSignUpComplete = false` with step `CONFIRM_SIGN_UP` and the delivery
medium, destination and triggering attribute echoed verbatim from the
response `CodeDeliveryDetails`, with `UserSub` as `userId`. -/
theorem signUp_userConfirmed_maps_result (cfg : Option CognitoAuthConfig)
    (username password : String) (res : SignUpResponse)
    (hcfg : tokenProviderConfigValid cfg = true)
    (hu : username ≠ "") (hp : password ≠ "") :
    (res.UserConfirmed = some true →
      (signUp cfg username password (.ok res)).result =
        .ok { isSignUpComplete := true, signUpStep := .DONE,
              codeDeliveryDetails := none, userId := none }) ∧
    (res.UserConfirmed.getD false = false →
      (signUp cfg username password (.ok res)).result =
        .ok { isSignUpComplete := false, signUpStep := .CONFIRM_SIGN_UP,
              codeDeliveryDetails := some
                { deliveryMedium :=
                    res.CodeDeliveryDetails.bind (·.DeliveryMedium)
                  destination := res.CodeDeliveryDetails.bind (·.Destination)
                  attributeName :=
                    res.CodeDeliveryDetails.bind (·.AttributeName) },
              userId := res.UserSub }) := by
  constructor
  · intro hconf
    simp [signUp, hcfg, hu, hp, hconf]
  · intro hconf
    simp [signUp, hcfg, hu, hp, hconf]

/-- C7 witness: the spec example — `UserConfirmed` false with
`CodeDeliveryDetails = {DeliveryMedium: EMAIL, Destination:
a***@example.com}` yields `isSignUpComplete = false`, step `CONFIRM_SIGN_UP`
and the delivery medium echoed verbatim; `UserConfirmed` true yields the
`DONE` result. -/
theorem signUp_userConfirmed_maps_result_witness :
    (signUp (some { userPoolId := some "pool",
                    userPoolClientId := some "client" }) "user" "pass"
      (.ok { UserConfirmed := some false,
             CodeDeliveryDetails := some
               { DeliveryMedium := some "EMAIL",
                 Destination := some "a***@example.com",
                 AttributeName := some "email" },
             UserSub := some "uuid" })).result =
      .ok { isSignUpComplete := false, signUpStep := .CONFIRM_SIGN_UP,
            codeDeliveryDetails := some
              { deliveryMedium := some "EMAIL",
                destination := some "a***@example.com",
                attributeName := some "email" },
            userId := some "uuid" } ∧
    (signUp (some { userPoolId := some "pool",
                    userPoolClientId := some "client" }) "user" "pass"
      (.ok { UserConfirmed := some true, CodeDeliveryDetails := none,
             UserSub := some "uuid" })).result =
      .ok { isSignUpComplete := true, signUpStep := .DONE,
            codeDeliveryDetails := none, userId := none } := by
  constructor
  · exact (signUp_userConfirmed_maps_result
      (some { userPoolId := some "pool", userPoolClientId := some "client" })
      "user" "pass"
      { UserConfirmed := some false,
        CodeDeliveryDetails := some
          { DeliveryMedium := some "EMAIL",
            Destination := some "a***@example.com",
            AttributeName := some "email" },
        UserSub := some "uuid" }
      (by decide) (by decide) (by decide)).2 rfl
  · exact (signUp_userConfirmed_maps_result
      (some { userPoolId := some "pool", userPoolClientId := some "client" })
      "user" "pass"
      { UserConfirmed := some true, CodeDeliveryDetails := none,
        UserSub := some "uuid" }
      (by decide) (by decide) (by decide)).1 rfl

/-- C8 counterexample: a configuration carrying a user pool id and a region
but no client id is accepted by `configureFacade`, satisfies
`isConfigured`, and `signIn` proceeds to dispatch the sign-in request — no
configuration error is raised before the network path, contradicting the
claim for the missing-client-id case. -/
theorem missing_clientId_not_detected :
    configureFacade { userPoolId := some "pool", region := some "region",
                      clientId := none } =
      .ok { userPoolId := some "pool", region := some "region",
            clientId := none } ∧
    isConfigured { config := { userPoolId := some "pool",
                               region := some "region", clientId := none },
                   authState := .signedOut, hasActorRef := false } = true ∧
    signInFacade { config := { userPoolId := some "pool",
                               region := some "region", clientId := none },
                   authState := .signedOut, hasActorRef := false } .Password =
      .dispatched := by
  exact ⟨rfl, rfl, rfl⟩

/-- C8 amended: for every configuration whose user pool id or region is
missing (or empty), `configure` throws the invalid-config error, and every
provider whose stored config lacks one of the two fails `signIn` with the
`Plugin not configured` error before dispatching any sign-in request; the
client id is not checked. -/
theorem missing_poolId_or_region_fails_before_network (cfg : ProviderConfig)
    (st : ProviderState) (ty : SignInType)
    (hcfg : truthyOpt cfg.userPoolId = false ∨ truthyOpt cfg.region = false)
    (hst : st.config = cfg) :
    configureFacade cfg = .error "Invalid config for CognitoProvider" ∧
    signInFacade st ty = .threw "Plugin not configured" := by
  have hconf : isConfigured st = false := by
    rw [isConfigured, hst]
    rcases hcfg with h | h <;> simp [h]
  constructor
  · rw [configureFacade, if_pos]
    rcases hcfg with h | h
    · exact Or.inl (by simp [h])
    · exact Or.inr (by simp [h])
  · rw [signInFacade, if_pos (by simp [hconf])]

/-- C8 amended witness: a config with a user pool id but no region is
rejected by `configure`, and a provider carrying it fails `signIn` with
`Plugin not configured`. -/
theorem missing_poolId_or_region_fails_before_network_witness :
    configureFacade { userPoolId := some "pool", region := none,
                      clientId := some "client" } =
      .error "Invalid config for CognitoProvider" ∧
    signInFacade { config := { userPoolId := some "pool", region := none,
                               clientId := some "client" },
                   authState := .signedOut, hasActorRef := false } .Password =
      .threw "Plugin not configured" := by
  exact missing_poolId_or_region_fails_before_network
    { userPoolId := some "pool", region := none, clientId := some "client" }
    { config := { userPoolId := some "pool", region := none,
                  clientId := some "client" },
      authState := .signedOut, hasActorRef := false } .Password
    (Or.inr rfl) rfl

/-- C10: a Predictions dispatch called with a (truthy) provider name that
matches no registered pluggable gets `.ok none` from
`getPluggableToExecute` (the `find` miss, not a thrown error) and then
dereferences the undefined provider; and the configuration-error branch is
reachable only when no provider name is supplied and the capability list
does not have exactly one element. -/
theorem named_provider_miss_returns_none
    (pluggables : List PredictionsProvider) (pn : String) (hpn : pn ≠ "")
    (hmiss : ∀ p ∈ pluggables, p.providerName ≠ pn) :
    getPluggableToExecute pluggables (some pn) = .ok none ∧
    predictionsDispatch pluggables (some pn) = .typeErrorOnUndefined ∧
    ∀ (pl : List PredictionsProvider) (opts : Option String) (msg : String),
      getPluggableToExecute pl opts = .error msg →
      truthyOpt opts = false ∧ pl.length ≠ 1 := by
  have hfind : (pluggables.find? fun p =>
      p.providerName = (some pn : Option String).getD "") = none := by
    rw [List.find?_eq_none]
    intro p hp
    simp [hmiss p hp]
  have hok : getPluggableToExecute pluggables (some pn) = .ok none := by
    rw [getPluggableToExecute, if_pos (by simp [truthyOpt, hpn]), hfind]
  refine ⟨hok, ?_, ?_⟩
  · rw [predictionsDispatch, hok]
  · intro pl opts msg herr
    rw [getPluggableToExecute] at herr
    by_cases h1 : truthyOpt opts = true
    · rw [if_pos h1] at herr
      exact absurd herr (by simp)
    · rw [if_neg h1] at herr
      by_cases h2 : pl.length = 1
      · rw [if_pos h2] at herr
        exact absurd herr (by simp)
      · exact ⟨by simpa using h1, h2⟩

/-- C10 witness: with one registered pluggable named
`AmazonAIConvertPredictionsProvider` and a request naming `other`, the lookup
yields `.ok none` and the dispatch dereferences undefined. -/
theorem named_provider_miss_returns_none_witness :
    getPluggableToExecute [{ providerName := "AmazonAIConvertPredictionsProvider" }]
      (some "other") = .ok none ∧
    predictionsDispatch [{ providerName := "AmazonAIConvertPredictionsProvider" }]
      (some "other") = .typeErrorOnUndefined := by
  have h := named_provider_miss_returns_none
    [{ providerName := "AmazonAIConvertPredictionsProvider" }] "other"
    (by decide) (by decide)
  exact ⟨h.1, h.2.1⟩

end Amplify
